import Mathlib

/-!
Shallow embedding of `src/index.ts` (HodleHub/hodle-swaps), a SideSwap
trading client: a JSON-over-websocket protocol with request/response frames
and push notifications, plus a swap workflow
(address → balances → quote → accept → confirmation polling).

The script keeps module-level mutable state (lines 131-137):
`requestId`, `currentAddress`, `balances`, `activeSwaps`, `shouldContinue`,
and a `responseEmitter : EventEmitter`.  The only listeners ever registered
on the emitter are the four one-shot (`once`) listeners installed by
`processSwap` for the events `quote_response`, `error_response`,
`accept_quote_response` and `swaps_response`; each such listener resolves a
dedicated promise.  We therefore model the emitter as four Boolean
"listener registered" flags plus three promise cells (`Option` cells where
`none` means the promise is still pending; resolving an already-resolved
promise is a no-op, as in JS).

Numeric wire values (`id`, amounts, `quote_id`, `ttl`) are modelled as
`Nat` for request ids (the counter starts at 1 and only increments) and
`Int` for amounts.  User prompts (`askYesOrNo`) are modelled by threading
the answer as an explicit Boolean argument.  `logger`/`console` output is
modelled as a list of `LogEvent`s so that claims about what is reported
(anomalies, per-asset balance lines, warnings) can be stated.
-/

/-- Swap status enumeration, `type Swap` in index.ts lines 96-99. -/
inductive SwapStatus where
  | NotFound
  | Mempool
  | Confirmed
deriving DecidableEq, Repr

/-- One swap record `{ txid, status }`, index.ts lines 96-99. -/
structure Swap where
  txid : String
  status : SwapStatus
deriving DecidableEq, Repr

/-- Body of a `GetQuote` response, index.ts lines 51-63. -/
structure QuotePayload where
  quote_id : Int
  recv_amount : Int
  ttl : Int
  txid : String
deriving DecidableEq, Repr

/-- The object emitted on the `quote_response` event by
`handleGetQuoteResponse` (index.ts line 246):
`{ id: quote.quote_id, txid: quote.txid, recv_amount: quote.recv_amount }`. -/
structure QuoteData where
  id : Int
  txid : String
  recv_amount : Int
deriving DecidableEq, Repr

/-- Payload of a response frame: the inner tagged variant of
`Resp.resp`, index.ts lines 26-110. -/
inductive RespPayload where
  | NewAddress (address : String)
  | GetQuote (q : QuotePayload)
  | AcceptQuote (txid : String)
  | GetSwaps (swaps : List Swap)
deriving DecidableEq, Repr

/-- A response frame `{ Resp: { id, resp } }` carrying a request id and a
tagged payload, index.ts lines 26-110. -/
structure RespFrame where
  id : Nat
  resp : RespPayload
deriving DecidableEq, Repr

/-- Body of an error frame `Error.err`, index.ts lines 112-121.
`details` is `unknown` in the source; the only use is the truthiness test
`if (error.err.details)` (line 285), which we model with `detailsTruthy`. -/
structure ErrPayload where
  text : String
  code : String
  detailsTruthy : Bool
deriving DecidableEq, Repr

/-- Inbound typed message union, index.ts lines 123-129.  A `Notif` carries
the `Balances` mapping (the only notification kind in the protocol). -/
inductive Message where
  | Notif (balances : List (String × Int))
  | Resp (frame : RespFrame)
  | Error (id : Nat) (err : ErrPayload)
deriving DecidableEq, Repr

/-- Payload of an outgoing request, index.ts lines 17-94. -/
inductive RequestPayload where
  | NewAddress
  | GetQuote (send_asset : String) (send_amount : Int)
      (recv_asset : String) (receive_address : String)
  | AcceptQuote (quote_id : Int)
  | GetSwaps
deriving DecidableEq, Repr

/-- An outgoing request envelope `{ Req: { id, req } }`. -/
structure ReqEnvelope where
  id : Nat
  req : RequestPayload
deriving DecidableEq, Repr

/-- One entry of terminal output: `logger.info/success/warn/error`,
plain `console.log`, `logger.json`, or `logger.balance` (index.ts
lines 144-156). -/
inductive LogEvent where
  | info (s : String)
  | success (s : String)
  | warn (s : String)
  | error (s : String)
  | plain (s : String)
  | json (label : String)
  | balance (asset : String) (amount : Int)
deriving DecidableEq, Repr

/-- The module-level mutable state of the script (index.ts lines 131-137)
together with the emitter's one-shot listeners and the promises they
resolve (registered by `processSwap`, lines 445-512). -/
structure ClientState where
  requestId : Nat
  currentAddress : Option String
  balances : List (String × Int)
  activeSwaps : List (String × Swap)
  shouldContinue : Bool
  quoteOnce : Bool
  errorOnce : Bool
  acceptOnce : Bool
  swapsOnce : Bool
  quotePromise : Option (Option QuoteData)
  acceptPromise : Option String
  swapsPromise : Option (List Swap)
deriving DecidableEq, Repr

/-- Initial module state: `requestId = 1`, no address, empty balances and
swap map, `shouldContinue = true`, no listeners registered
(index.ts lines 131-137). -/
def initialState : ClientState :=
  { requestId := 1
    currentAddress := none
    balances := []
    activeSwaps := []
    shouldContinue := true
    quoteOnce := false
    errorOnce := false
    acceptOnce := false
    swapsOnce := false
    quotePromise := none
    acceptPromise := none
    swapsPromise := none }

/-- Resolving a JS promise: the first `resolve` fills the cell, any later
`resolve` is a no-op that keeps the first value. -/
def promiseResolve {α : Type} (cell : Option α) (v : α) : Option α :=
  match cell with
  | none => some v
  | some old => some old

/-- List infix test on characters, used to model JS
`String.prototype.includes`. -/
def charsInfixOf (needle : List Char) : List Char → Bool
  | [] => needle.isEmpty
  | c :: rest => needle.isPrefixOf (c :: rest) || charsInfixOf needle rest

/-- JS `s.includes(sub)` (index.ts line 453:
`error.err.text.includes('Quote error')`). -/
def strIncludes (s sub : String) : Bool :=
  charsInfixOf sub.data s.data

/-- JS object indexing `balances[asset]`: the value stored under the first
(only) matching key, or `undefined` (here `none`) when absent. -/
def lookupBalance (balances : List (String × Int)) (asset : String) : Option Int :=
  (balances.find? (fun p => p.1 == asset)).map (fun p => p.2)

/-- Balance-sufficiency check, index.ts lines 202-205:
`const currentBalance = balances[asset] || 0; return currentBalance >= requiredAmount;`.
The `|| 0` maps JS-falsy values (`undefined` for a missing key, and the
number `0` itself) to `0`; for an integer amount that is `0` both for a
missing key and for a stored `0`. -/
def hasBalanceForAsset (balances : List (String × Int)) (asset : String)
    (requiredAmount : Int) : Bool :=
  let currentBalance : Int :=
    match lookupBalance balances asset with
    | none => 0
    | some v => if v == 0 then 0 else v
  currentBalance ≥ requiredAmount

/-- `getNewAddress` (index.ts lines 338-349): builds a `NewAddress` request
envelope with id `requestId++` and sends it. -/
def getNewAddressReq (st : ClientState) : ClientState × ReqEnvelope :=
  ({ st with requestId := st.requestId + 1 },
   { id := st.requestId, req := RequestPayload.NewAddress })

/-- `getQuote` (index.ts lines 351-380): if the balance for `sendAsset` is
insufficient it prompts (`askYesOrNo`, answer threaded as `refetchAnswer`);
on yes it sends a `NewAddress` request instead, on no it sends nothing.
Otherwise it sends a `GetQuote` envelope with id `requestId++`. -/
def getQuoteReq (st : ClientState) (sendAsset : String) (sendAmount : Int)
    (recvAsset : String) (receiveAddress : String) (refetchAnswer : Bool) :
    ClientState × List ReqEnvelope :=
  if !(hasBalanceForAsset st.balances sendAsset sendAmount) then
    if refetchAnswer then
      let (st', env) := getNewAddressReq st
      (st', [env])
    else
      (st, [])
  else
    ({ st with requestId := st.requestId + 1 },
     [{ id := st.requestId,
        req := RequestPayload.GetQuote sendAsset sendAmount recvAsset receiveAddress }])

/-- `acceptQuote` (index.ts lines 382-395): sends an `AcceptQuote` envelope
with id `requestId++`. -/
def acceptQuoteReq (st : ClientState) (quoteId : Int) : ClientState × ReqEnvelope :=
  ({ st with requestId := st.requestId + 1 },
   { id := st.requestId, req := RequestPayload.AcceptQuote quoteId })

/-- `getSwaps` (index.ts lines 397-408): sends a `GetSwaps` envelope with id
`requestId++`. -/
def getSwapsReq (st : ClientState) : ClientState × ReqEnvelope :=
  ({ st with requestId := st.requestId + 1 },
   { id := st.requestId, req := RequestPayload.GetSwaps })

/-- One outgoing operation of a client session, used to state the id
allocation invariant over arbitrary interleavings of the four senders. -/
inductive Op where
  | newAddress
  | getQuote (send_asset : String) (send_amount : Int)
      (recv_asset : String) (receive_address : String) (refetchAnswer : Bool)
  | acceptQuote (quote_id : Int)
  | getSwaps
deriving DecidableEq, Repr

/-- Runs one operation, returning the new state and the envelopes it sent
(zero or one; `getQuote` can also send a `NewAddress` refetch). -/
def doOp (st : ClientState) : Op → ClientState × List ReqEnvelope
  | Op.newAddress =>
      let (st', env) := getNewAddressReq st
      (st', [env])
  | Op.getQuote sa amt ra addr ans => getQuoteReq st sa amt ra addr ans
  | Op.acceptQuote qid =>
      let (st', env) := acceptQuoteReq st qid
      (st', [env])
  | Op.getSwaps =>
      let (st', env) := getSwapsReq st
      (st', [env])

/-- Runs a sequence of operations, concatenating all sent envelopes in
order. -/
def runOps (st : ClientState) : List Op → ClientState × List ReqEnvelope
  | [] => (st, [])
  | op :: ops =>
      let (st', es) := doOp st op
      let (st'', es') := runOps st' ops
      (st'', es ++ es')

/-- `handleNewAddressResponse` (index.ts lines 234-238): stores the address
in `currentAddress` and logs it. -/
def handleNewAddressResponse (address : String) (st : ClientState) :
    ClientState × List LogEvent :=
  ({ st with currentAddress := some address },
   [LogEvent.success "New address generated:", LogEvent.plain address])

/-- `handleGetQuoteResponse` (index.ts lines 240-247): logs the quote and
emits `quote_response` with `{ id: quote_id, txid, recv_amount }`.  The
emission invokes the one-shot `quote_response` listener if one is
registered (consuming it), which resolves the quote promise. -/
def handleGetQuoteResponse (quote : QuotePayload) (st : ClientState) :
    ClientState × List LogEvent :=
  let logs := [LogEvent.success "Quote received:",
    LogEvent.plain "Quote ID:", LogEvent.plain "Receive amount:",
    LogEvent.plain "TTL:", LogEvent.plain quote.txid]
  let st' :=
    if st.quoteOnce then
      { st with
        quoteOnce := false,
        quotePromise := promiseResolve st.quotePromise
          (some { id := quote.quote_id, txid := quote.txid,
                  recv_amount := quote.recv_amount }) }
    else st
  (st', logs)

/-- `handleAcceptQuoteResponse` (index.ts lines 249-253): logs and emits
`accept_quote_response` with the txid, resolving the accept promise if its
one-shot listener is registered. -/
def handleAcceptQuoteResponse (txid : String) (st : ClientState) :
    ClientState × List LogEvent :=
  let logs := [LogEvent.success "Quote accepted:", LogEvent.plain txid]
  let st' :=
    if st.acceptOnce then
      { st with
        acceptOnce := false,
        acceptPromise := promiseResolve st.acceptPromise txid }
    else st
  (st', logs)

/-- JS `Map.set` semantics for `activeSwaps.set(swap.txid, swap)`. -/
def mapSet (m : List (String × Swap)) (k : String) (v : Swap) :
    List (String × Swap) :=
  if m.any (fun p => p.1 == k) then
    m.map (fun p => if p.1 == k then (k, v) else p)
  else
    m ++ [(k, v)]

/-- `handleGetSwapsResponse` (index.ts lines 265-279): logs the count; on an
EMPTY list it warns and RETURNS WITHOUT EMITTING `swaps_response` (lines
268-271), so the swaps promise is not resolved; otherwise it stores every
swap in `activeSwaps`, logs each, and emits `swaps_response`. -/
def handleGetSwapsResponse (swaps : List Swap) (st : ClientState) :
    ClientState × List LogEvent :=
  let logs := [LogEvent.success "Swaps status:"]
  if swaps.isEmpty then
    (st, logs ++ [LogEvent.warn "No swaps found"])
  else
    let st := { st with
      activeSwaps :=
        swaps.foldl (fun m (s : Swap) => mapSet m s.txid s) st.activeSwaps }
    let st :=
      if st.swapsOnce then
        { st with
          swapsOnce := false,
          swapsPromise := promiseResolve st.swapsPromise swaps }
      else st
    (st, logs ++ swaps.map (fun s => LogEvent.plain s.txid))

/-- `handleErrorResponse` (index.ts lines 281-289): logs the error text and
code (and details when truthy) and emits `error_response`.  The one-shot
`error_response` listener registered by `processSwap` (lines 452-456)
resolves the quote promise with `null` ONLY when the error text contains
the substring `Quote error`; in every case the emission consumes the
listener. -/
def handleErrorResponse (eid : Nat) (err : ErrPayload) (st : ClientState) :
    ClientState × List LogEvent :=
  let n := eid
  let logs := [LogEvent.error s!"Error (Request ID: {n}):",
    LogEvent.plain err.text, LogEvent.plain err.code]
    ++ (if err.detailsTruthy then [LogEvent.json "Error details:"] else [])
  let st' :=
    if st.errorOnce then
      let st := { st with errorOnce := false }
      if strIncludes err.text "Quote error" then
        { st with quotePromise := promiseResolve st.quotePromise none }
      else st
    else st
  (st', logs)

/-- `handleResponseMessage` (index.ts lines 291-311): dispatches a `Resp`
frame on the INNER payload tag (`'NewAddress' in resp.resp`, ...).  The
frame's `id` field is never read. -/
def handleResponseMessage (frame : RespFrame) (st : ClientState) :
    ClientState × List LogEvent :=
  match frame.resp with
  | RespPayload.NewAddress address => handleNewAddressResponse address st
  | RespPayload.GetQuote q => handleGetQuoteResponse q st
  | RespPayload.AcceptQuote txid => handleAcceptQuoteResponse txid st
  | RespPayload.GetSwaps swaps => handleGetSwapsResponse swaps st

/-- `handleBalancesNotification` (index.ts lines 207-232): replaces the
whole balances snapshot, then — when the new mapping is empty — warns,
prompts the user to refetch (`refetchAnswer`); on yes a `NewAddress`
request is sent after a delay, on no `shouldContinue` is set to `false`.
When the mapping is non-empty it logs one `balance` line per asset.
The returned Boolean records whether the refetch prompt was shown. -/
def handleBalancesNotification (balancesData : List (String × Int))
    (refetchAnswer : Bool) (st : ClientState) :
    ClientState × List LogEvent × List ReqEnvelope × Bool :=
  let st := { st with balances := balancesData }
  let logs := [LogEvent.success "Balances updated:"]
  if balancesData.isEmpty then
    let logs := logs ++ [LogEvent.warn "No balances available"]
    if refetchAnswer then
      let (st', env) := getNewAddressReq st
      (st', logs, [env], true)
    else
      ({ st with shouldContinue := false },
       logs ++ [LogEvent.warn "Operation cancelled by user"], [], true)
  else
    (st, logs ++ balancesData.map (fun p => LogEvent.balance p.1 p.2), [], false)

/-- `handleMessage` (index.ts lines 313-330) on a typed message: `Notif`
frames go to the balances handler, `Resp` frames to the response
dispatcher, `Error` frames to the error handler. -/
def handleMessage (m : Message) (refetchAnswer : Bool) (st : ClientState) :
    ClientState × List LogEvent × List ReqEnvelope :=
  match m with
  | Message.Notif balancesData =>
      let (st', logs, sent, _) := handleBalancesNotification balancesData refetchAnswer st
      (st', logs, sent)
  | Message.Resp frame =>
      let (st', logs) := handleResponseMessage frame st
      (st', logs, [])
  | Message.Error eid err =>
      let (st', logs) := handleErrorResponse eid err st
      (st', logs, [])

/-- A log entry that reports an anomaly (a `warn` or `error` line); the
normal `info`/`success`/plain output does not. -/
def isAnomalyLog : LogEvent → Bool
  | LogEvent.warn _ => true
  | LogEvent.error _ => true
  | _ => false

/-- Result of the opening part of `processSwap` (index.ts lines 412-460):
everything up to (and including) sending the `GetQuote` request.
`prompted` records whether the insufficient-balance retry-or-abort prompt
was shown; `proceeded` records whether the workflow went on to request a
quote. -/
structure SwapStartResult where
  state : ClientState
  sent : List ReqEnvelope
  prompted : Bool
  proceeded : Bool
  logs : List LogEvent
deriving DecidableEq, Repr

/-- Opening part of `processSwap` (index.ts lines 412-460).  With no
address it logs an error and returns.  With an address but an insufficient
`DePix` balance for the fixed send amount `1` (lines 420-436) it warns and
prompts: on yes it re-requests an address (sending a `NewAddress`
envelope), on no it warns, sets `shouldContinue := false` and returns
without sending anything.  With sufficient balance it registers the
one-shot `quote_response` and `error_response` listeners with a fresh
pending quote promise (lines 445-457) and lets `getQuote` send the
`GetQuote` envelope (line 460). -/
def processSwapStart (st : ClientState) (refetchAnswer : Bool) : SwapStartResult :=
  match st.currentAddress with
  | none =>
      { state := st, sent := [], prompted := false, proceeded := false,
        logs := [LogEvent.error "No address available. Please generate an address first."] }
  | some address =>
      if !(hasBalanceForAsset st.balances "DePix" 1) then
        let logs := [LogEvent.warn "No DePix balance available"]
        if refetchAnswer then
          let (st', env) := getNewAddressReq st
          { state := st', sent := [env], prompted := true, proceeded := false,
            logs := logs }
        else
          { state := { st with shouldContinue := false }, sent := [],
            prompted := true, proceeded := false,
            logs := logs ++ [LogEvent.warn "Operation cancelled by user"] }
      else
        let st1 := { st with
          quoteOnce := true, errorOnce := true, quotePromise := none }
        let (st2, envs) := getQuoteReq st1 "DePix" 1 "L-BTC" address refetchAnswer
        { state := st2, sent := envs, prompted := false, proceeded := true,
          logs := [LogEvent.success "Found sufficient balance for DePix. Proceeding with swap...",
                   LogEvent.info "Requesting quote: 1 DePix to L-BTC"] }

/-- The delayed final status check in `main` (index.ts lines 557-561):
after the swap workflow, `getSwaps` is sent only if `shouldContinue` is
still `true`. -/
def mainFinalCheck (st : ClientState) : ClientState × List ReqEnvelope :=
  if st.shouldContinue then
    let (st', env) := getSwapsReq st
    (st', [env])
  else (st, [])

/-- The scheduled continuation of `main` (index.ts lines 553-563): when
`shouldContinue` holds, run the swap workflow (abstracted as `runSwap`,
returning the state it leaves and the envelopes it sends) and then the
final `getSwaps` check; when `shouldContinue` is `false`, nothing is sent
at all. -/
def mainScheduledSends (st : ClientState)
    (runSwap : ClientState → ClientState × List ReqEnvelope) : List ReqEnvelope :=
  if st.shouldContinue then
    let (st', sent) := runSwap st
    sent ++ (mainFinalCheck st').2
  else []

/-- `maxAttempts` of the confirmation-polling loop, index.ts line 499. -/
def maxAttempts : Nat := 10

/-- Outcome of the confirmation-polling loop of `processSwap` (index.ts
lines 497-542).  `Confirmed` is the success exit (line 527-529), `TimedOut`
the exhaustion exit that warns the caller to check later (lines 540-542),
and `Stuck` the situation where `await swapsPromise` never returns because
no further `swaps_response` emission occurs (in particular
`handleGetSwapsResponse` returns without emitting on an empty list,
lines 268-271). -/
inductive PollResult where
  | Confirmed
  | TimedOut
  | Stuck
deriving DecidableEq, Repr

/-- Code after the polling loop (index.ts lines 540-542): a status other
than `Confirmed` is reported as not-yet-confirmed, i.e. timed out. -/
def pollFinish (status : SwapStatus) : PollResult :=
  if status == SwapStatus.Confirmed then PollResult.Confirmed else PollResult.TimedOut

/-- The polling loop of `processSwap` (index.ts lines 497-542), one
recursive step per iteration of
`while (attempts < maxAttempts && swapStatus !== 'Confirmed')`.
Each iteration registers a one-shot `swaps_response` listener, sends
`GetSwaps` and awaits the next emission; `responses` is the sequence of
swaps lists carried by the successive `GetSwaps` responses.  An empty
response list is logged by `handleGetSwapsResponse` but NOT emitted
(lines 268-271), so the iteration's `await` never returns (`Stuck`);
likewise when no response arrives at all.  Otherwise the emitted list is
searched with `swaps.find(swap => swap.txid === txid)` (line 521): the
FIRST entry with the awaited txid decides — `Confirmed` breaks out
successfully, any other status (or no match) increments `attempts` and
loops. -/
def pollAux (txid : String) : List (List Swap) → Nat → SwapStatus → PollResult
  | [], attempts, status =>
      if attempts < maxAttempts && !(status == SwapStatus.Confirmed) then
        PollResult.Stuck
      else pollFinish status
  | swaps :: rest, attempts, status =>
      if attempts < maxAttempts && !(status == SwapStatus.Confirmed) then
        if swaps.isEmpty then PollResult.Stuck
        else
          match swaps.find? (fun s => s.txid == txid) with
          | some s =>
              if s.status == SwapStatus.Confirmed then PollResult.Confirmed
              else pollAux txid rest (attempts + 1) s.status
          | none => pollAux txid rest (attempts + 1) status
      else pollFinish status

/-- Entry into the polling phase (index.ts lines 497-499):
`swapStatus = 'NotFound'; attempts = 0`. -/
def pollSwapStatus (txid : String) (responses : List (List Swap)) : PollResult :=
  pollAux txid responses 0 SwapStatus.NotFound

/-- JSON values, as produced by `JSON.parse` on an inbound frame
(index.ts line 182).  Numbers are modelled as integers, which covers every
numeric field of the wire protocol. -/
inductive Json where
  | null
  | bool (b : Bool)
  | num (n : Int)
  | str (s : String)
  | arr (elems : List Json)
  | obj (fields : List (String × Json))

/-- JS property access combined with the `'key' in value` test: for an
object, the value stored under the key (objects have unique keys; we take
the first match); for anything else, or a missing key, `none`. -/
def getKey : Json → String → Option Json
  | Json.obj fields, k => (fields.find? (fun p => p.1 == k)).map (fun p => p.2)
  | _, _ => none

/-- JS truthiness of an optional JSON value, for
`if (error.err.details)` (index.ts line 285). -/
def jsonTruthy : Option Json → Bool
  | none => false
  | some Json.null => false
  | some (Json.bool b) => b
  | some (Json.num n) => !(n == 0)
  | some (Json.str s) => !s.isEmpty
  | some (Json.arr _) => true
  | some (Json.obj _) => true

/-- Extracts a string field value. -/
def asStr : Option Json → Option String
  | some (Json.str s) => some s
  | _ => none

/-- Extracts an integer field value. -/
def asInt : Option Json → Option Int
  | some (Json.num n) => some n
  | _ => none

/-- Extracts a request id (a non-negative wire integer). -/
def asNat (j : Option Json) : Option Nat :=
  match asInt j with
  | some n => some n.toNat
  | none => none

/-- Decodes the body of a `Balances` notification,
`{ balances: { asset: amount, ... } }`. -/
def balancesFields : List (String × Json) → Option (List (String × Int))
  | [] => some []
  | (k, Json.num n) :: rest =>
      (balancesFields rest).map (fun tl => (k, n) :: tl)
  | _ => none

/-- Decodes the `balances` mapping value. -/
def jsonToBalances : Option Json → Option (List (String × Int))
  | some (Json.obj fields) => balancesFields fields
  | _ => none

/-- Decodes a swap status string. -/
def jsonToStatus : Option Json → Option SwapStatus
  | some (Json.str "NotFound") => some SwapStatus.NotFound
  | some (Json.str "Mempool") => some SwapStatus.Mempool
  | some (Json.str "Confirmed") => some SwapStatus.Confirmed
  | _ => none

/-- Decodes one element of a `GetSwaps` response's `swaps` array. -/
def jsonToSwap (j : Json) : Option Swap :=
  match asStr (getKey j "txid"), jsonToStatus (getKey j "status") with
  | some t, some s => some { txid := t, status := s }
  | _, _ => none

/-- Decodes a `swaps` array. -/
def jsonToSwaps : Option Json → Option (List Swap)
  | some (Json.arr elems) => elems.mapM jsonToSwap
  | _ => none

/-- Decodes the inner payload of a `Resp` frame by testing the payload tags
in the order `handleResponseMessage` does (index.ts lines 291-311:
`NewAddress`, `GetQuote`, `AcceptQuote`, `GetSwaps`); an unrecognized tag
decodes to `none`, matching the handler falling through without any
action.  Bodies are decoded at the documented wire shape; the claims only
exercise well-shaped bodies and unrecognized tags. -/
def decodeRespPayload (rp : Json) : Option RespPayload :=
  match getKey rp "NewAddress" with
  | some na => (asStr (getKey na "address")).map RespPayload.NewAddress
  | none =>
  match getKey rp "GetQuote" with
  | some gq =>
      (match asInt (getKey gq "quote_id"), asInt (getKey gq "recv_amount"),
             asInt (getKey gq "ttl"), asStr (getKey gq "txid") with
       | some a, some b, some c, some d =>
           some (RespPayload.GetQuote { quote_id := a, recv_amount := b, ttl := c, txid := d })
       | _, _, _, _ => none)
  | none =>
  match getKey rp "AcceptQuote" with
  | some aq => (asStr (getKey aq "txid")).map RespPayload.AcceptQuote
  | none =>
  match getKey rp "GetSwaps" with
  | some gs => (jsonToSwaps (getKey gs "swaps")).map RespPayload.GetSwaps
  | none => none

/-- `handleMessage` (index.ts lines 313-330) at the JSON level: the
top-level discriminant is tested in source order (`Notif`, `Resp`,
`Error`), then the inner discriminant; a frame whose discriminants match
no recognized combination falls through with no state change, no output
and no sends.  (When a recognized discriminant carries a body outside the
documented wire shape the dynamically-typed source propagates the garbage;
the embedding treats those frames as no-ops, and no claim exercises
them.) -/
def handleMessageJson (j : Json) (refetchAnswer : Bool) (st : ClientState) :
    ClientState × List LogEvent × List ReqEnvelope :=
  match getKey j "Notif" with
  | some notifObj =>
      (match getKey notifObj "notif" with
       | some inner =>
           (match getKey inner "Balances" with
            | some balObj =>
                (match jsonToBalances (getKey balObj "balances") with
                 | some data =>
                     let (st', logs, sent, _) :=
                       handleBalancesNotification data refetchAnswer st
                     (st', logs, sent)
                 | none => (st, [], []))
            | none => (st, [], []))
       | none => (st, [], []))
  | none =>
  match getKey j "Resp" with
  | some respObj =>
      (match getKey respObj "resp" with
       | some rp =>
           (match decodeRespPayload rp with
            | some payload =>
                let (st', logs) := handleResponseMessage
                  { id := (asNat (getKey respObj "id")).getD 0, resp := payload } st
                (st', logs, [])
            | none => (st, [], []))
       | none => (st, [], []))
  | none =>
  match getKey j "Error" with
  | some errObj =>
      (match getKey errObj "err" with
       | some errBody =>
           (match asStr (getKey errBody "text"), asStr (getKey errBody "code") with
            | some text, some code =>
                let (st', logs) := handleErrorResponse
                  ((asNat (getKey errObj "id")).getD 0)
                  { text := text, code := code,
                    detailsTruthy := jsonTruthy (getKey errBody "details") } st
                (st', logs, [])
            | _, _ => (st, [], []))
       | none => (st, [], []))
  | none => (st, [], [])

/-- Discriminant-level recognizer: `true` when the frame's discriminant
combination matches none of the recognized shapes of
`handleMessage`/`handleResponseMessage` (index.ts lines 291-330). -/
def isUnrecognizedFrame (j : Json) : Bool :=
  match getKey j "Notif" with
  | some notifObj =>
      (match getKey notifObj "notif" with
       | some inner => (getKey inner "Balances").isNone
       | none => true)
  | none =>
  match getKey j "Resp" with
  | some respObj =>
      (match getKey respObj "resp" with
       | some rp =>
           (getKey rp "NewAddress").isNone && (getKey rp "GetQuote").isNone &&
           (getKey rp "AcceptQuote").isNone && (getKey rp "GetSwaps").isNone
       | none => true)
  | none => (getKey j "Error").isNone

/-- The websocket `message` handler (index.ts lines 178-190): an inbound
text frame is parsed inside `try`/`catch`.  A frame on which `JSON.parse`
throws is modelled as `none`: the `catch` arm logs the parse error, the
state is untouched and the connection stays open.  A parsed frame is
echoed (`logger.json('RECEIVED', ...)`) and dispatched. -/
def processFrame (st : ClientState) (refetchAnswer : Bool) (frame : Option Json) :
    ClientState × List LogEvent × List ReqEnvelope :=
  match frame with
  | none => (st, [LogEvent.error "Error parsing message:"], [])
  | some j =>
      let (st', logs, sent) := handleMessageJson j refetchAnswer st
      (st', LogEvent.json "RECEIVED" :: logs, sent)

/-- Processes a sequence of inbound frames in arrival order, accumulating
the requests sent as a side effect of handling them. -/
def processFrames (st : ClientState) (refetchAnswer : Bool) :
    List (Option Json) → ClientState × List ReqEnvelope
  | [] => (st, [])
  | f :: rest =>
      let (st', _, sent) := processFrame st refetchAnswer f
      let (st'', sent') := processFrames st' refetchAnswer rest
      (st'', sent ++ sent')

/-- A frame that is malformed JSON (`none`) or has an unrecognized
discriminant combination. -/
def isBadFrame : Option Json → Bool
  | none => true
  | some j => isUnrecognizedFrame j

/-- A session state after the `NewAddress` request (id 1) was sent and
answered and a balance push arrived: address known, `DePix` balance 5,
next id 2. -/
def readyState : ClientState :=
  { initialState with
    requestId := 2,
    currentAddress := some "addr1",
    balances := [("DePix", 5)] }

/-- The session state while `processSwap` awaits its quote: reached from
`readyState` by the opening part of `processSwap`, which registered the
one-shot `quote_response`/`error_response` listeners and sent the
`GetQuote` request with envelope id 2 (so ids 1 and 2 are the only ids
ever issued; `requestId = 3`). -/
def quotePhaseState : ClientState := (processSwapStart readyState false).state

/-- A concrete `GetQuote` response body. -/
def quoteRespA : QuotePayload :=
  { quote_id := 7, recv_amount := 42, ttl := 30, txid := "txA" }

/-- A second, different `GetQuote` response body. -/
def quoteRespB : QuotePayload :=
  { quote_id := 8, recv_amount := 9, ttl := 1, txid := "txB" }

/-- An error body whose text does not contain `Quote error`. -/
def errInternal : ErrPayload :=
  { text := "Internal server error", code := "500", detailsTruthy := false }

/-- An error body whose text contains `Quote error`. -/
def errQuote : ErrPayload :=
  { text := "Quote error: expired", code := "7", detailsTruthy := false }

/-- C1 as stated is FALSE: in the quote-awaiting session only ids 1 and 2
were ever issued (the `GetQuote` request the awaiter belongs to has id 2),
yet a `GetQuote`-tagged response frame carrying the never-issued id 999 is
delivered to that awaiter and fulfills its promise — delivery goes by
payload tag, not by the frame's numeric id. -/
theorem C1_counterexample :
    999 ≥ quotePhaseState.requestId
    ∧ (processSwapStart readyState false).sent.map (fun e => e.id) = [2]
    ∧ (handleMessage
        (Message.Resp { id := 999, resp := RespPayload.GetQuote quoteRespA })
        false quotePhaseState).1.quotePromise
      = some (some { id := 7, txid := "txA", recv_amount := 42 }) := by
  decide

/-- C1 amended: the client matches an inbound `Response` frame to the
outstanding awaiter purely by the frame's payload tag, via one-shot event
listeners; the frame's numeric id is ignored entirely —
`handleResponseMessage` treats two frames that differ only in id
identically, and a `GetQuote`-tagged response fulfills the registered
quote awaiter whatever id it carries. -/
theorem C1_amended (st : ClientState) (i j : Nat) (p : RespPayload)
    (q : QuotePayload) (hq : st.quoteOnce = true) :
    handleResponseMessage { id := i, resp := p } st
      = handleResponseMessage { id := j, resp := p } st
    ∧ (handleResponseMessage { id := i, resp := RespPayload.GetQuote q } st).1.quotePromise
      = promiseResolve st.quotePromise
          (some { id := q.quote_id, txid := q.txid, recv_amount := q.recv_amount }) := by
  constructor
  · rfl
  · simp [handleResponseMessage, handleGetQuoteResponse, hq]

/-- Witness for the amended C1 at a concrete input. -/
theorem C1_witness :
    handleResponseMessage { id := 1, resp := RespPayload.GetQuote quoteRespA } quotePhaseState
      = handleResponseMessage { id := 999, resp := RespPayload.GetQuote quoteRespA } quotePhaseState
    ∧ (handleResponseMessage { id := 1, resp := RespPayload.GetQuote quoteRespA } quotePhaseState).1.quotePromise
      = promiseResolve quotePhaseState.quotePromise
          (some { id := quoteRespA.quote_id, txid := quoteRespA.txid,
                  recv_amount := quoteRespA.recv_amount }) :=
  C1_amended quotePhaseState 1 999 (RespPayload.GetQuote quoteRespA) quoteRespA (by decide)

/-- The session state after the first quote response has resolved the
quote promise (listener consumed). -/
def resolvedQuoteState : ClientState :=
  (handleMessage (Message.Resp { id := 2, resp := RespPayload.GetQuote quoteRespA })
    false quotePhaseState).1

/-- C2 as stated is FALSE: a second `GetQuote` response for the same id 2,
arriving after the first already fulfilled the awaiter, is indeed a no-op
that leaves the delivered result unchanged — but NO anomaly is reported:
the handler's output for the duplicate contains no `warn`/`error` entry,
only the normal success echo. -/
theorem C2_counterexample :
    (handleMessage (Message.Resp { id := 2, resp := RespPayload.GetQuote quoteRespB })
      false resolvedQuoteState).1.quotePromise = resolvedQuoteState.quotePromise
    ∧ resolvedQuoteState.quotePromise
        = some (some { id := 7, txid := "txA", recv_amount := 42 })
    ∧ ((handleMessage (Message.Resp { id := 2, resp := RespPayload.GetQuote quoteRespB })
        false resolvedQuoteState).2.1.all (fun e => !(isAnomalyLog e))) = true := by
  decide

/-- C2 amended: resolution is exactly-once per event kind, not per id —
while the one-shot `quote_response` listener is registered and the quote
promise pending, the first `GetQuote`-tagged response fulfills it; once
the listener is consumed, any further `GetQuote`-tagged response is a
no-op that does not alter the already-delivered result, and no anomaly is
reported (the duplicate produces no `warn`/`error` output). -/
theorem C2_amended (st : ClientState) (i : Nat) (q q' : QuotePayload) :
    (st.quoteOnce = true → st.quotePromise = none →
      (handleMessage (Message.Resp { id := i, resp := RespPayload.GetQuote q })
        false st).1.quotePromise
        = some (some { id := q.quote_id, txid := q.txid, recv_amount := q.recv_amount }))
    ∧ (st.quoteOnce = false →
      (handleMessage (Message.Resp { id := i, resp := RespPayload.GetQuote q' })
        false st).1.quotePromise = st.quotePromise
      ∧ ((handleMessage (Message.Resp { id := i, resp := RespPayload.GetQuote q' })
          false st).2.1.all (fun e => !(isAnomalyLog e))) = true) := by
  constructor
  · intro h1 h2
    simp [handleMessage, handleResponseMessage, handleGetQuoteResponse, h1, h2,
      promiseResolve]
  · intro h1
    constructor
    · simp [handleMessage, handleResponseMessage, handleGetQuoteResponse, h1]
    · simp [handleMessage, handleResponseMessage, handleGetQuoteResponse, h1,
        isAnomalyLog]

/-- Witness for the amended C2 at concrete inputs: the first response
fulfills the pending awaiter of `quotePhaseState`; a duplicate against
`resolvedQuoteState` (listener consumed) leaves the result unchanged and
reports nothing. -/
theorem C2_witness :
    (handleMessage (Message.Resp { id := 2, resp := RespPayload.GetQuote quoteRespA })
      false quotePhaseState).1.quotePromise
      = some (some { id := quoteRespA.quote_id, txid := quoteRespA.txid,
                     recv_amount := quoteRespA.recv_amount })
    ∧ ((handleMessage (Message.Resp { id := 2, resp := RespPayload.GetQuote quoteRespB })
        false resolvedQuoteState).1.quotePromise = resolvedQuoteState.quotePromise
      ∧ ((handleMessage (Message.Resp { id := 2, resp := RespPayload.GetQuote quoteRespB })
          false resolvedQuoteState).2.1.all (fun e => !(isAnomalyLog e))) = true) :=
  ⟨(C2_amended quotePhaseState 2 quoteRespA quoteRespB).1 (by decide) (by decide),
   (C2_amended resolvedQuoteState 2 quoteRespA quoteRespB).2 (by decide)⟩

/-- Each sender allocates ids with `requestId++`: one operation advances
the counter by the number of envelopes it sends and the ids it places are
consecutive from the old counter value. -/
theorem doOp_ids (st : ClientState) (op : Op) :
    (doOp st op).1.requestId = st.requestId + (doOp st op).2.length
    ∧ (doOp st op).2.map (fun e => e.id)
      = List.range' st.requestId (doOp st op).2.length := by
  cases op with
  | newAddress => exact ⟨rfl, rfl⟩
  | getQuote sa amt ra addr ans =>
      by_cases hb : hasBalanceForAsset st.balances sa amt = true
      · simp [doOp, getQuoteReq, hb]
      · simp only [Bool.not_eq_true] at hb
        cases ans with
        | false => simp [doOp, getQuoteReq, hb]
        | true => simp [doOp, getQuoteReq, getNewAddressReq, hb]
  | acceptQuote qid => exact ⟨rfl, rfl⟩
  | getSwaps => exact ⟨rfl, rfl⟩

/-- Running a sequence of operations sends envelopes whose ids are exactly
the consecutive block starting at the current counter value, and advances
the counter by their number. -/
theorem runOps_ids (ops : List Op) : ∀ st : ClientState,
    (runOps st ops).1.requestId = st.requestId + (runOps st ops).2.length
    ∧ (runOps st ops).2.map (fun e => e.id)
      = List.range' st.requestId (runOps st ops).2.length := by
  induction ops with
  | nil => intro st; simp [runOps]
  | cons op ops ih =>
      intro st
      have hd := doOp_ids st op
      have hi := ih (doOp st op).1
      rcases hdo : doOp st op with ⟨st1, es⟩
      rw [hdo] at hd hi
      simp only at hd hi
      rcases hro : runOps st1 ops with ⟨st2, es'⟩
      rw [hro] at hi
      simp only at hi
      simp only [runOps, hdo, hro]
      constructor
      · simp [hi.1, hd.1, Nat.add_assoc]
      · rw [List.map_append, hd.2, hi.2, hd.1, List.length_append]
        have happ := List.range'_append st.requestId es.length es'.length 1
        rw [one_mul] at happ
        rw [happ, Nat.add_comm es'.length es.length]

/-- C3: for every sequence of outgoing operations of one session
(`NewAddress`, `GetQuote`, `AcceptQuote`, `GetSwaps`, in any order,
including `GetQuote`'s insufficient-balance refetch path), the ids placed
in the request envelopes are exactly `1, 2, ..., n` — they start at 1,
increase by exactly 1 per sent request, and are never reused. -/
theorem C3_theorem (ops : List Op) :
    (runOps initialState ops).2.map (fun e => e.id)
      = List.range' 1 (runOps initialState ops).2.length
    ∧ ((runOps initialState ops).2.map (fun e => e.id)).Nodup := by
  have h := (runOps_ids ops initialState).2
  constructor
  · exact h
  · rw [h]
    exact List.nodup_range' _ _

/-- C4 as stated is FALSE: in the quote-awaiting session (requests issued:
ids 1 and 2), an Error frame bound to request id 2 whose text does not
contain `Quote error` does NOT force any terminal failure — the quote
promise stays pending, so the session remains blocked awaiting its quote;
worse, the one-shot `error_response` listener is consumed, so even a
subsequent matching `Quote error` frame can no longer terminate the
session. -/
theorem C4_counterexample :
    (handleMessage (Message.Error 2 errInternal) false quotePhaseState).1.quotePromise = none
    ∧ (handleMessage (Message.Error 2 errInternal) false quotePhaseState).1.errorOnce = false
    ∧ (handleMessage (Message.Error 2 errQuote) false
        (handleMessage (Message.Error 2 errInternal) false quotePhaseState).1).1.quotePromise
      = none := by
  decide

/-- C4 amended: while the one-shot `error_response` listener is registered
and the quote promise pending, an inbound Error frame resolves the quote
promise with `null` (which `processSwap` reports as a failed quote and
terminates on) exactly when its text contains `Quote error`; any other
Error frame is only logged, leaves the quote promise pending (the session
keeps waiting, in no terminal state), and in either case the one-shot
listener is consumed. -/
theorem C4_amended (st : ClientState) (eid : Nat) (err : ErrPayload)
    (hl : st.errorOnce = true) (hp : st.quotePromise = none) :
    (strIncludes err.text "Quote error" = true →
      (handleMessage (Message.Error eid err) false st).1.quotePromise = some none)
    ∧ (strIncludes err.text "Quote error" = false →
      (handleMessage (Message.Error eid err) false st).1.quotePromise = none)
    ∧ (handleMessage (Message.Error eid err) false st).1.errorOnce = false := by
  refine ⟨?_, ?_, ?_⟩
  · intro hq
    simp [handleMessage, handleErrorResponse, hl, hp, hq, promiseResolve]
  · intro hq
    simp [handleMessage, handleErrorResponse, hl, hp, hq]
  · by_cases hq : strIncludes err.text "Quote error" = true
    · simp [handleMessage, handleErrorResponse, hl, hq]
    · simp only [Bool.not_eq_true] at hq
      simp [handleMessage, handleErrorResponse, hl, hq]

/-- Witness for the amended C4 at concrete inputs: a `Quote error` frame
terminates the quote wait of `quotePhaseState` with `null`. -/
theorem C4_witness :
    (handleMessage (Message.Error 2 errQuote) false quotePhaseState).1.quotePromise = some none
    ∧ (handleMessage (Message.Error 2 errQuote) false quotePhaseState).1.errorOnce = false :=
  ⟨(C4_amended quotePhaseState 2 errQuote (by decide) (by decide)).1 (by decide),
   (C4_amended quotePhaseState 2 errQuote (by decide) (by decide)).2.2⟩

/-- C5 as stated is FALSE at two concrete inputs: (1) a response whose
swaps list CONTAINS `{txid := "abc", Confirmed}` — but behind a
`{txid := "abc", Mempool}` entry that `swaps.find` hits first — does not
drive the session to `Confirmed`; (2) an empty swaps list (an instance of
"a list not mentioning T") does not leave the session polling for another
attempt: `handleGetSwapsResponse` never emits for it, so the poll await
stalls. -/
theorem C5_counterexample :
    pollSwapStatus "abc"
      [[{ txid := "abc", status := SwapStatus.Mempool },
        { txid := "abc", status := SwapStatus.Confirmed }]] ≠ PollResult.Confirmed
    ∧ pollSwapStatus "abc" [[]] = PollResult.Stuck := by
  decide

/-- C5 amended: for a session polling for txid `txid` with attempts left,
a non-empty `GetSwaps` response decides by the FIRST entry matching the
txid: if that entry's status is `Confirmed` the session terminates in the
`Confirmed` success state; if it has any other status the session
continues polling with the attempt counter incremented and that status
recorded; a non-empty response with no matching entry continues polling
with the status unchanged; an empty response never resolves the poll
awaiter and stalls the session. -/
theorem C5_amended (txid : String) (r : List Swap) (rest : List (List Swap))
    (a : Nat) (status : SwapStatus) (s : Swap)
    (ha : a < maxAttempts) (hs : status ≠ SwapStatus.Confirmed) :
    (r.find? (fun x => x.txid == txid) = some s →
      (s.status = SwapStatus.Confirmed →
        pollAux txid (r :: rest) a status = PollResult.Confirmed)
      ∧ (s.status ≠ SwapStatus.Confirmed →
        pollAux txid (r :: rest) a status = pollAux txid rest (a + 1) s.status))
    ∧ (r ≠ [] → r.find? (fun x => x.txid == txid) = none →
        pollAux txid (r :: rest) a status = pollAux txid rest (a + 1) status)
    ∧ pollAux txid ([] :: rest) a status = PollResult.Stuck := by
  refine ⟨?_, ?_, ?_⟩
  · intro hf
    have hre : r.isEmpty = false := by
      cases r with
      | nil => simp [List.find?] at hf
      | cons x xs => rfl
    constructor
    · intro hc
      simp [pollAux, ha, hs, hre, hf, hc]
    · intro hc
      simp [pollAux, ha, hs, hre, hf, hc]
  · intro hr hf
    have hre : r.isEmpty = false := by
      cases r with
      | nil => exact absurd rfl hr
      | cons x xs => rfl
    simp [pollAux, ha, hs, hre, hf]
  · simp [pollAux, ha, hs, List.isEmpty]

/-- Witness for the amended C5 at concrete inputs: a response whose first
matching entry is Confirmed terminates the poll successfully. -/
theorem C5_witness :
    pollAux "abc" [[{ txid := "abc", status := SwapStatus.Confirmed }]] 0
      SwapStatus.NotFound = PollResult.Confirmed :=
  ((C5_amended "abc" [{ txid := "abc", status := SwapStatus.Confirmed }] [] 0
      SwapStatus.NotFound { txid := "abc", status := SwapStatus.Confirmed }
      (by decide) (by decide)).1 (by decide)).1 rfl

/-- C6 as stated is FALSE: a polling session whose `GetSwaps` responses
never show txid `"abc"` as Confirmed — here one non-matching response
followed by an empty-list response — does not terminate in `TimedOut`:
the empty response is never emitted to the poll awaiter
(`handleGetSwapsResponse` returns before `emit` on an empty list), so the
session stalls forever inside its second attempt. -/
theorem C6_counterexample :
    pollSwapStatus "abc" [[{ txid := "zzz", status := SwapStatus.Mempool }], []]
      = PollResult.Stuck
    ∧ PollResult.Stuck ≠ PollResult.TimedOut := by
  decide

/-- A `GetSwaps` response list that keeps the poll loop running: non-empty
(so it is emitted to the awaiter) and whose first entry matching the
awaited txid, if any, is not `Confirmed`. -/
def respOkB (txid : String) (r : List Swap) : Bool :=
  !r.isEmpty &&
    ((r.find? (fun x => x.txid == txid)).all (fun s => s.status != SwapStatus.Confirmed))

/-- Exhaustion of the polling loop: starting with `k` attempts used, a
block of responses that all keep the loop running and exactly fill the
remaining budget drives the loop to `TimedOut`, whatever arrives
afterwards. -/
theorem pollAux_timeout (txid : String) :
    ∀ (a : List (List Swap)) (k : Nat) (status : SwapStatus) (b : List (List Swap)),
      status ≠ SwapStatus.Confirmed →
      (∀ r ∈ a, respOkB txid r = true) →
      k + a.length = maxAttempts →
      pollAux txid (a ++ b) k status = PollResult.TimedOut := by
  intro a
  induction a with
  | nil =>
      intro k status b hs _ hk
      simp only [List.length_nil, Nat.add_zero] at hk
      subst hk
      cases b with
      | nil => simp [pollAux, pollFinish, hs]
      | cons r rest => simp [pollAux, pollFinish, hs]
  | cons r rest ih =>
      intro k status b hs hok hk
      have hklt : k < maxAttempts := by
        simp only [List.length_cons] at hk
        omega
      have hr := hok r (by simp)
      simp only [respOkB, Bool.and_eq_true, Bool.not_eq_true'] at hr
      obtain ⟨hre, hfind⟩ := hr
      have hok' : ∀ x ∈ rest, respOkB txid x = true := by
        intro x hx
        exact hok x (by simp [hx])
      have hk' : (k + 1) + rest.length = maxAttempts := by
        simp only [List.length_cons] at hk
        omega
      rw [List.cons_append]
      cases hf : r.find? (fun x => x.txid == txid) with
      | none =>
          simp only [pollAux, hklt, hs, hre, hf]
          simp [hklt, hs, hre]
          exact ih (k + 1) status b hs hok' hk'
      | some s =>
          rw [hf] at hfind
          simp only [Option.all_some, bne_iff_ne, ne_eq] at hfind
          simp only [pollAux, hklt, hs, hre, hf]
          simp [hklt, hs, hre, hfind]
          exact ih (k + 1) s.status b hfind hok' hk'

/-- C6 amended: provided each of the first 10 `GetSwaps` responses arrives
non-empty (an empty list is never emitted to the awaiter and would stall
the loop) and none of them shows the awaited txid as `Confirmed` (first
matching entry), the polling loop performs exactly its 10 attempts and
terminates in `TimedOut` — the check-status-later outcome — never in a
failure state, regardless of any later responses `b`. -/
theorem C6_amended (txid : String) (a b : List (List Swap))
    (ha : a.length = maxAttempts)
    (hok : ∀ r ∈ a, respOkB txid r = true) :
    pollSwapStatus txid (a ++ b) = PollResult.TimedOut := by
  unfold pollSwapStatus
  exact pollAux_timeout txid a 0 SwapStatus.NotFound b (by simp) hok (by simpa using ha)

/-- Witness for the amended C6: ten non-empty responses never mentioning
txid `"abc"` exhaust the budget into `TimedOut`. -/
theorem C6_witness :
    pollSwapStatus "abc"
      (List.replicate 10 [{ txid := "zzz", status := SwapStatus.Mempool }] ++ [])
      = PollResult.TimedOut :=
  C6_amended "abc" (List.replicate 10 [{ txid := "zzz", status := SwapStatus.Mempool }])
    [] (by decide) (by decide)

/-- A `logger.error` line; the insufficient-balance branch must produce
none (it is a normal branch, not an error). -/
def isErrorLog : LogEvent → Bool
  | LogEvent.error _ => true
  | _ => false

/-- C7: with an address known and the balance snapshot insufficient for
the configured send asset (`DePix`, amount 1), `processSwap` takes the
insufficient-balance branch: it shows the retry-or-abort prompt, logs no
error (only warnings), and — when the caller declines — sends no request,
sets `shouldContinue := false` (so the scheduled final status check also
sends nothing), terminating the workflow in the aborted outcome; when the
caller accepts, the retry re-requests the address. -/
theorem C7_theorem (st : ClientState) (addr : String)
    (haddr : st.currentAddress = some addr)
    (hbal : hasBalanceForAsset st.balances "DePix" 1 = false) :
    (processSwapStart st false).prompted = true
    ∧ (processSwapStart st false).sent = []
    ∧ (processSwapStart st false).state = { st with shouldContinue := false }
    ∧ ((processSwapStart st false).logs.all (fun e => !(isErrorLog e))) = true
    ∧ mainFinalCheck (processSwapStart st false).state
        = ((processSwapStart st false).state, [])
    ∧ (processSwapStart st true).sent
        = [{ id := st.requestId, req := RequestPayload.NewAddress }] := by
  simp [processSwapStart, haddr, hbal, mainFinalCheck, getNewAddressReq, isErrorLog]

/-- Witness for C7: the ready session with every balance zero (empty
snapshot) and required amount 1 declines the retry and aborts cleanly. -/
theorem C7_witness :
    (processSwapStart { initialState with currentAddress := some "addr1" } false).prompted = true
    ∧ (processSwapStart { initialState with currentAddress := some "addr1" } false).sent = []
    ∧ (processSwapStart { initialState with currentAddress := some "addr1" } false).state
        = { { initialState with currentAddress := some "addr1" } with shouldContinue := false }
    ∧ ((processSwapStart { initialState with currentAddress := some "addr1" } false).logs.all
        (fun e => !(isErrorLog e))) = true
    ∧ mainFinalCheck (processSwapStart { initialState with currentAddress := some "addr1" } false).state
        = ((processSwapStart { initialState with currentAddress := some "addr1" } false).state, [])
    ∧ (processSwapStart { initialState with currentAddress := some "addr1" } true).sent
        = [{ id := { initialState with currentAddress := some "addr1" }.requestId,
             req := RequestPayload.NewAddress }] :=
  C7_theorem { initialState with currentAddress := some "addr1" } "addr1" (by decide) (by decide)

/-- A frame whose discriminants match no recognized combination is handled
without any state change, output or sends. -/
theorem handleMessageJson_unrecognized (j : Json) (ans : Bool) (st : ClientState)
    (h : isUnrecognizedFrame j = true) :
    handleMessageJson j ans st = (st, [], []) := by
  cases hN : getKey j "Notif" with
  | some notifObj =>
      cases hn : getKey notifObj "notif" with
      | some inner =>
          have hB : getKey inner "Balances" = none := by
            simp [isUnrecognizedFrame, hN, hn, Option.isNone_iff_eq_none] at h
            exact h
          simp [handleMessageJson, hN, hn, hB]
      | none => simp [handleMessageJson, hN, hn]
  | none =>
      cases hR : getKey j "Resp" with
      | some respObj =>
          cases hr : getKey respObj "resp" with
          | some rp =>
              simp only [isUnrecognizedFrame, hN, hR, hr, Bool.and_eq_true,
                Option.isNone_iff_eq_none] at h
              obtain ⟨⟨⟨h1, h2⟩, h3⟩, h4⟩ := h
              simp [handleMessageJson, hN, hR, hr, decodeRespPayload, h1, h2, h3, h4]
          | none => simp [handleMessageJson, hN, hR, hr]
      | none =>
          cases hE : getKey j "Error" with
          | some eo => simp [isUnrecognizedFrame, hN, hR, hE] at h
          | none => simp [handleMessageJson, hN, hR, hE]

/-- C8: a frame that is malformed JSON (`JSON.parse` throws, the `catch`
arm logs it) or carries an unrecognized discriminant combination (the
dispatcher falls through) is logged and discarded without crashing: the
client state is unchanged, nothing is sent, and processing any subsequent
frames from the same state is unaffected — a subsequent well-formed frame
is processed exactly as if the bad frame had never arrived. -/
theorem C8_theorem (st : ClientState) (ans : Bool) (f : Option Json)
    (rest : List (Option Json)) (hbad : isBadFrame f = true) :
    (processFrame st ans f).1 = st
    ∧ (processFrame st ans f).2.2 = []
    ∧ (processFrame st ans f).2.1 ≠ []
    ∧ processFrames st ans (f :: rest) = processFrames st ans rest := by
  cases f with
  | none =>
      refine ⟨rfl, rfl, by simp [processFrame], ?_⟩
      simp [processFrames, processFrame]
  | some j =>
      have hu : isUnrecognizedFrame j = true := hbad
      have hh := handleMessageJson_unrecognized j ans st hu
      refine ⟨?_, ?_, ?_, ?_⟩ <;> simp [processFrames, processFrame, hh]

/-- A frame with an unknown top-level discriminant. -/
def badFrameJson : Json := Json.obj [("Bogus", Json.null)]

/-- A well-formed `NewAddress` response frame. -/
def goodFrameJson : Json :=
  Json.obj [("Resp", Json.obj [("id", Json.num 1),
    ("resp", Json.obj [("NewAddress", Json.obj [("address", Json.str "addr1")])])])]

/-- Witness for C8: the bogus frame leaves the initial state untouched and
the following well-formed `NewAddress` response is still processed
correctly (the address is stored). -/
theorem C8_witness :
    isBadFrame (some badFrameJson) = true
    ∧ processFrames initialState false [some badFrameJson, some goodFrameJson]
        = processFrames initialState false [some goodFrameJson]
    ∧ (processFrames initialState false
        [some badFrameJson, some goodFrameJson]).1.currentAddress = some "addr1" :=
  ⟨by decide,
   (C8_theorem initialState false (some badFrameJson) [some goodFrameJson] (by decide)).2.2.2,
   by decide⟩

/-- C9: the balance-sufficiency check returns `true` exactly when the
amount stored for the asset — taken as 0 when the asset is absent from
the snapshot — is at least the required amount; in particular, against
the empty snapshot (an asset mentioned nowhere) it succeeds only for a
required amount of at most 0. -/
theorem C9_theorem (bal : List (String × Int)) (asset : String) (r : Int) :
    (hasBalanceForAsset bal asset r = true ↔ ((lookupBalance bal asset).getD 0) ≥ r)
    ∧ (hasBalanceForAsset [] asset r = true ↔ r ≤ 0) := by
  constructor
  · cases h : lookupBalance bal asset with
    | none => simp [hasBalanceForAsset, h]
    | some v =>
        by_cases hv : v = 0
        · subst hv
          simp [hasBalanceForAsset, h]
        · simp [hasBalanceForAsset, h, hv]
  · simp [hasBalanceForAsset, lookupBalance]

/-- A `logger.balance` per-asset line (index.ts lines 152-154). -/
def isBalanceLog : LogEvent → Bool
  | LogEvent.balance _ _ => true
  | _ => false

/-- C10: a `Balances` notification carrying an empty mapping replaces the
stored snapshot with the empty mapping, reports no per-asset amounts,
prompts the user to refetch, and sends nothing itself; when the user
declines, `shouldContinue` is set to `false`, so the scheduled swap
workflow and the final status check of `main` send no requests at all,
whatever the swap workflow would have done. -/
theorem C10_theorem (st : ClientState)
    (runSwap : ClientState → ClientState × List ReqEnvelope) :
    (handleBalancesNotification [] false st).1.balances = []
    ∧ (handleBalancesNotification [] false st).2.2.2 = true
    ∧ ((handleBalancesNotification [] false st).2.1.all (fun e => !(isBalanceLog e))) = true
    ∧ (handleBalancesNotification [] false st).2.2.1 = []
    ∧ (handleBalancesNotification [] false st).1.shouldContinue = false
    ∧ mainScheduledSends (handleBalancesNotification [] false st).1 runSwap = [] := by
  simp [handleBalancesNotification, mainScheduledSends, isBalanceLog]
